import Mathlib

/-!
Verification of the mailpile `mailutils.py` core against its specification.

This file shallowly embeds the parts of `src/mailpile/mailutils.py` that the
claims C1-C10 are about:

* the line-block classifier `Email.parse_line_type` / `Email.parse_text_part`
  (lines 1266-1359),
* the attachment-counting walks of `Email.get_message_tree` (lines 1150-1209)
  and `Email._find_attachments` (lines 918-940),
* the inline-PGP overlay `Email.evaluate_pgp` (lines 1371-1441),
* the address-header parser driver `AddressHeaderParser._parse`,
  `._tokenize` munging, `._find_addresses` and `._find_address`
  (lines 1590-1750),
* the global parse cache of `ParseMessage` (lines 104-144).

Decoded text is modelled as `List Char`.  Python 2 byte/unicode coercions and
charset codecs are collapsed (encode/decode modelled as the identity); they are
orthogonal to every claim below.  Where a claim depends on code of this
repository that is not under `src/` (the armor constants of
`mailpile.crypto.gpgi.GnuPG`, the `SignatureInfo`/`EncryptionInfo` classes of
`mailpile.crypto.state`, and `mailpile.vcard.AddressInfo`), the definition is
modelled from the spec and marked as such in its doc comment.
-/

/-- Convert a string literal to the `List Char` representation used throughout. -/
def chars (s : String) : List Char := s.toList

/-- Decidable equality for `Except`, so concrete runs of the fallible
embeddings can be checked by `decide`. -/
instance {ε α : Type} [DecidableEq ε] [DecidableEq α] :
    DecidableEq (Except ε α) := fun x y =>
  match x, y with
  | .error a, .error b =>
    if h : a = b then .isTrue (by rw [h]) else .isFalse (by simp [h])
  | .ok a, .ok b =>
    if h : a = b then .isTrue (by rw [h]) else .isFalse (by simp [h])
  | .error _, .ok _ => .isFalse (by simp)
  | .ok _, .error _ => .isFalse (by simp)

/-- Python's whitespace set for `str.strip`/`str.rstrip` and the `\s` class of
`re` (space, tab, newline, carriage return, vertical tab, form feed). -/
def pyIsSpace (c : Char) : Bool :=
  c == ' ' || c == '\t' || c == '\n' || c == '\r' || c == '\x0b' || c == '\x0c'

/-- Python `str.rstrip()` — drop trailing whitespace. -/
def pyRstrip (l : List Char) : List Char :=
  (l.reverse.dropWhile pyIsSpace).reverse

/-- Python `str.strip()` — drop leading and trailing whitespace. -/
def pyStrip (l : List Char) : List Char :=
  pyRstrip (l.dropWhile pyIsSpace)

/-- Modelled from the spec: the OpenPGP armor delimiter constants of
`mailpile.crypto.gpgi.GnuPG` (`gpgi.py` is not under `src/`); spec section 6
fixes the strings bit-exactly. `GnuPG.ARMOR_BEGIN_SIGNED`. -/
def ARMOR_BEGIN_SIGNED : List Char := chars "-----BEGIN PGP SIGNED MESSAGE-----"

/-- Modelled from the spec: `GnuPG.ARMOR_BEGIN_SIGNATURE` (see `ARMOR_BEGIN_SIGNED`). -/
def ARMOR_BEGIN_SIGNATURE : List Char := chars "-----BEGIN PGP SIGNATURE-----"

/-- Modelled from the spec: `GnuPG.ARMOR_END_SIGNATURE` (see `ARMOR_BEGIN_SIGNED`). -/
def ARMOR_END_SIGNATURE : List Char := chars "-----END PGP SIGNATURE-----"

/-- Modelled from the spec: `GnuPG.ARMOR_BEGIN_ENCRYPTED` (see `ARMOR_BEGIN_SIGNED`). -/
def ARMOR_BEGIN_ENCRYPTED : List Char := chars "-----BEGIN PGP MESSAGE-----"

/-- Modelled from the spec: `GnuPG.ARMOR_END_ENCRYPTED` (see `ARMOR_BEGIN_SIGNED`). -/
def ARMOR_END_ENCRYPTED : List Char := chars "-----END PGP MESSAGE-----"

/-- The block states threaded through `Email.parse_line_type` (the strings
`'body'`, `'quote'`, ..., `'pgpend'` in the source). -/
inductive BlockState where
  | body | quote | signature
  | pgpbeginsigned | pgpsignedtext | pgpsignature
  | pgpbegin | pgptext | pgpend
deriving DecidableEq, Repr

/-- The line/block types emitted by `Email.parse_line_type` (second component
of its result). -/
inductive LineType where
  | text | quote | signature
  | pgpbeginsigned | pgpsignedtext | pgpsignature
  | pgpbegin | pgptext | pgpend
deriving DecidableEq, Repr

/-- Embedding of `Email.parse_line_type(self, line, block)`
(`mailutils.py` lines 1310-1359): one transition of the line classifier,
returning `(next_block, line_type)`. -/
def parse_line_type (line : List Char) (block : BlockState) :
    BlockState × LineType :=
  if (block = .body ∨ block = .quote) ∧
      (line = chars "-- \n" ∨ line = chars "-- \r\n" ∨
       line = chars "- --\n" ∨ line = chars "- --\r\n") then
    (.signature, .signature)
  else if block = .signature then
    (.signature, .signature)
  else if pyRstrip line = ARMOR_BEGIN_SIGNED then
    (.pgpbeginsigned, .pgpbeginsigned)
  else if block = .pgpbeginsigned then
    if List.isPrefixOf (chars "Hash: ") line ∨ pyRstrip line = [] then
      (.pgpbeginsigned, .pgpbeginsigned)
    else
      (.pgpsignedtext, .pgpsignedtext)
  else if block = .pgpsignedtext then
    if pyRstrip line = ARMOR_BEGIN_SIGNATURE then
      (.pgpsignature, .pgpsignature)
    else
      (.pgpsignedtext, .pgpsignedtext)
  else if block = .pgpsignature then
    if pyRstrip line = ARMOR_END_SIGNATURE then
      (.pgpend, .pgpsignature)
    else
      (.pgpsignature, .pgpsignature)
  else if pyRstrip line = ARMOR_BEGIN_ENCRYPTED then
    (.pgpbegin, .pgpbegin)
  else if block = .pgpbegin then
    if line.contains ':' = true ∨ pyRstrip line = [] then
      (.pgpbegin, .pgpbegin)
    else
      (.pgptext, .pgptext)
  else if block = .pgptext then
    if pyRstrip line = ARMOR_END_ENCRYPTED then
      (.pgpend, .pgpend)
    else
      (.pgptext, .pgptext)
  else if block = .quote ∧ pyRstrip line = [] then
    (.quote, .quote)
  else if List.isPrefixOf (chars ">") line then
    (.quote, .quote)
  else
    (.body, .text)

/-- Python `data.splitlines(True)`, worker: accumulate the current line
(reversed) and split after `\n`, `\r\n` or `\r`, keeping the terminators. -/
def splitlinesAux (acc : List Char) : List Char → List (List Char)
  | [] => if acc.isEmpty then [] else [acc.reverse]
  | '\n' :: rest => (acc.reverse ++ ['\n']) :: splitlinesAux [] rest
  | '\r' :: '\n' :: rest => (acc.reverse ++ ['\r', '\n']) :: splitlinesAux [] rest
  | '\r' :: rest => (acc.reverse ++ ['\r']) :: splitlinesAux [] rest
  | c :: rest => splitlinesAux (c :: acc) rest

/-- Python `data.splitlines(True)`: split into lines keeping the line
terminators.  (The reconstruction claim C1 only needs that concatenating the
pieces gives back the input, which holds for any keep-ends splitter.) -/
def pySplitlines (l : List Char) : List (List Char) := splitlinesAux [] l

/-- Modelled from the spec: a cryptographic status record, standing in for
`mailpile.crypto.state.SignatureInfo` / `EncryptionInfo` (`crypto/state.py` is
not under `src/`).  Spec section 3: default state is "none"; only the `status`
field matters to the claims below. -/
structure CryptoStatus where
  status : List Char
deriving DecidableEq, Repr

/-- The default "none" status a fresh `SignatureInfo`/`EncryptionInfo` carries
(spec section 3: "Default state is none/none"). -/
def csNone : CryptoStatus := ⟨chars "none"⟩

/-- One element of the `parse` list built by `Email.parse_text_part`: the dict
`{'type': ..., 'data': ..., 'charset': ..., 'crypto': {'signature': ...,
'encryption': ...}}`.  The parent back-links of the fresh part-level
`SignatureInfo(parent=psi)` / `EncryptionInfo(parent=pei)` are not modelled:
no claim touches part-level bubbling. -/
structure TextBlock where
  btype : LineType
  data : List Char
  charset : List Char
  signature : CryptoStatus
  encryption : CryptoStatus
deriving DecidableEq, Repr

instance : Inhabited TextBlock := ⟨⟨.text, [], [], csNone, csNone⟩⟩

/-- The loop state of `Email.parse_text_part` (lines 1266-1308): `parse` holds
the finished blocks, `cur` the block currently being extended (`none` models
the initial `'bogus'` placeholder, which is never appended to `parse`),
`block` the classifier state, and `clines` the lines accumulated since the
current block started. -/
structure PTState where
  parse : List TextBlock
  cur : Option TextBlock
  block : BlockState
  clines : List (List Char)
deriving DecidableEq, Repr

/-- The quote-lookback of `parse_text_part` (lines 1286-1294): on a transition
into a `quote` block, how many trailing lines of the current block move into
the new block — 1 when the last accumulated line contains `'@'`, else 2 when
there are more than two lines, the second-to-last contains `'@'` and the last
is blank, else 0. -/
def lookback_k (ltype : LineType) (clines : List (List Char)) : Nat :=
  if ltype = .quote ∧ (clines.getLast?.getD []).contains '@' = true then 1
  else if ltype = .quote ∧ 2 < clines.length ∧
      (clines.dropLast.getLast?.getD []).contains '@' = true ∧
      pyStrip (clines.getLast?.getD []) = [] then 2
  else 0

/-- One iteration of the `for line in data.splitlines(True)` loop of
`Email.parse_text_part`: classify the line, and either extend the current
block or finish it (applying the quote-lookback) and start a new one. -/
def parse_text_part_step (charset : List Char) (st : PTState)
    (line : List Char) : PTState :=
  let bt := parse_line_type line st.block
  match st.cur with
  | some b =>
    if bt.2 = b.btype then
      ⟨st.parse, some { b with data := b.data ++ line }, bt.1,
        st.clines ++ [line]⟩
    else
      let k := lookback_k bt.2 st.clines
      let kept := st.clines.take (st.clines.length - k)
      let moved := st.clines.drop (st.clines.length - k)
      let prev : TextBlock := if k = 0 then b else { b with data := kept.flatten }
      ⟨st.parse ++ [prev], some ⟨bt.2, moved.flatten ++ line, charset, csNone, csNone⟩,
        bt.1, moved ++ [line]⟩
  | none =>
      let k := lookback_k bt.2 st.clines
      let moved := st.clines.drop (st.clines.length - k)
      ⟨st.parse, some ⟨bt.2, moved.flatten ++ line, charset, csNone, csNone⟩,
        bt.1, moved ++ [line]⟩

/-- The initial state of `parse_text_part`: empty output, the `'bogus'`
placeholder current block, classifier state `'body'`, no accumulated lines. -/
def parse_text_part_init : PTState := ⟨[], none, .body, []⟩

/-- Run the `parse_text_part` loop over an explicit list of lines and collect
the resulting blocks (the `parse` list; the current block is an element of
`parse` in the source — here it is carried separately and appended). -/
def parse_text_part_run (charset : List Char) (lines : List (List Char)) :
    List TextBlock :=
  let st := lines.foldl (parse_text_part_step charset) parse_text_part_init
  st.parse ++ st.cur.toList

/-- Embedding of `Email.parse_text_part(self, data, charset, crypto)`
(lines 1266-1308): split the decoded text into lines, classify each line and
assemble typed blocks. -/
def parse_text_part (data charset : List Char) : List TextBlock :=
  parse_text_part_run charset (pySplitlines data)

/-- Embedding of the cache insertion of `ParseMessage` (lines 140-144):
`GLOBAL_PARSE_CACHE[24:] = []` (keep 25 items) followed by
`GLOBAL_PARSE_CACHE[:0] = [(cache_id, pgpmime, message)]` (new entry first).
An entry is `(cache_id, pgpmime, message)`. -/
def parse_cache_insert {α β : Type} (cache : List (α × Bool × β))
    (e : α × Bool × β) : List (α × Bool × β) :=
  e :: cache.take 24

/-- Embedding of the cache lookup of `ParseMessage` (lines 104-108): return
the first cached message whose `cache_id` and `pgpmime` flag both match. -/
def parse_cache_lookup {α β : Type} [DecidableEq α] :
    List (α × Bool × β) → α → Bool → Option β
  | [], _, _ => none
  | e :: rest, cid, pm =>
    if e.1 = cid ∧ e.2.1 = pm then some e.2.2 else parse_cache_lookup rest cid pm

/-- A MIME part as far as the attachment-counting walks inspect it:
`part.get_content_type()` and the optional `cryptedcontainer` attribute
(`none` models the attribute being absent, which makes the guarded test in
`get_message_tree` raise `AttributeError` into its bare `except: pass`). -/
structure MimePart where
  mimetype : List Char
  cryptedcontainer : Option Bool
deriving DecidableEq, Repr

/-- Counting walk of `Email._find_attachments` (lines 918-926): for each
walked part, the `count` value it is given, or `none` for parts skipped by
`continue` (only `multipart/*`). -/
def find_attachments_counts_go (count : Nat) : List MimePart → List (Option Nat)
  | [] => []
  | p :: rest =>
    if List.isPrefixOf (chars "multipart/") p.mimetype then
      none :: find_attachments_counts_go count rest
    else
      some (count + 1) :: find_attachments_counts_go (count + 1) rest

/-- The `count` assigned to each part by `Email._find_attachments`. -/
def find_attachments_counts (parts : List MimePart) : List (Option Nat) :=
  find_attachments_counts_go 0 parts

/-- Counting walk of `Email.get_message_tree` (lines 1152-1170): parts skipped
by `continue` — `multipart/*`, `application/pgp-encrypted`, and
`application/octet-stream` with `cryptedcontainer is True` — get `none`;
every other part gets the next `count`. -/
def get_message_tree_counts_go (count : Nat) : List MimePart → List (Option Nat)
  | [] => []
  | p :: rest =>
    if List.isPrefixOf (chars "multipart/") p.mimetype ∨
        p.mimetype = chars "application/pgp-encrypted" ∨
        (p.mimetype = chars "application/octet-stream" ∧
          p.cryptedcontainer = some true) then
      none :: get_message_tree_counts_go count rest
    else
      some (count + 1) :: get_message_tree_counts_go (count + 1) rest

/-- The `count` assigned to each part by `Email.get_message_tree`. -/
def get_message_tree_counts (parts : List MimePart) : List (Option Nat) :=
  get_message_tree_counts_go 0 parts

/-- A Python 2 value as far as the address-parser control flow compares it:
the `_pass`/`munge` variables hold `False`, `'2'` or `'3'`, and are compared
against the integer literal `3`. -/
inductive PyVal where
  | pyBool (b : Bool)
  | pyInt (n : Int)
  | pyStr (s : String)
deriving DecidableEq, Repr

/-- Python 2 truthiness of the values above (`if munge:`). -/
def pyTruthy : PyVal → Bool
  | .pyBool b => b
  | .pyInt n => n != 0
  | .pyStr s => s != ""

/-- Python 2 `==` on the values above: numeric types compare by value
(`True == 1`), while a `str` never equals an `int` or `bool` — in particular
`'3' == 3` is `False`, which is what the source's `_pass == 3` and
`munge == 3` guards evaluate. -/
def pyEq : PyVal → PyVal → Bool
  | .pyInt a, .pyInt b => a == b
  | .pyStr a, .pyStr b => a == b
  | .pyBool a, .pyBool b => a == b
  | .pyBool a, .pyInt b => (if a then (1 : Int) else 0) == b
  | .pyInt a, .pyBool b => a == (if b then (1 : Int) else 0)
  | _, _ => false

/-- First munge token-spacer of `AddressHeaderParser._tokenize`:
`re.sub('(\S)(<)', '\1 \2', string)` — insert a space between a non-space
character and a following `<` (non-overlapping, left to right). -/
def munge_spacer1 : List Char → List Char
  | a :: '<' :: rest =>
    if pyIsSpace a then a :: munge_spacer1 ('<' :: rest)
    else a :: ' ' :: '<' :: munge_spacer1 rest
  | a :: rest => a :: munge_spacer1 rest
  | [] => []

/-- Second munge token-spacer of `AddressHeaderParser._tokenize`:
`re.sub('(\S)(=\?)', '\1 \2', string)` — insert a space between a non-space
character and a following `=?`. -/
def munge_spacer2 : List Char → List Char
  | a :: '=' :: '?' :: rest =>
    if pyIsSpace a then a :: munge_spacer2 ('=' :: '?' :: rest)
    else a :: ' ' :: '=' :: '?' :: munge_spacer2 rest
  | a :: rest => a :: munge_spacer2 rest
  | [] => []

/-- Embedding of the munge preprocessing of `AddressHeaderParser._tokenize`
(lines 1654-1661): the string handed to the `RE_TOKENIZER` `re.findall`.
If `munge` is truthy, both `RE_MUNGE_TOKENSPACERS` are applied; the
`RE_MUNGE_TOKENSTRIPPERS` (strip `[<>"]`) are applied only `if munge == 3` —
a Python 2 comparison of the value actually passed (`'2'` or `'3'`) against
the integer 3.  (The `re.findall` tokenization itself is not needed by any
claim: claim C5 is about the munged string it receives.) -/
def tokenize_munge (munge : PyVal) (s : List Char) : List Char :=
  if pyTruthy munge then
    let s1 := munge_spacer2 (munge_spacer1 s)
    if pyEq munge (.pyInt 3) then
      s1.filter (fun c => !(c == '<' || c == '>' || c == '"'))
    else s1
  else s

/-- ASCII letter or digit (`[A-Za-z0-9]`). -/
def isAlnumAscii (c : Char) : Bool :=
  ('a' ≤ c && c ≤ 'z') || ('A' ≤ c && c ≤ 'Z') || ('0' ≤ c && c ≤ '9')

/-- A word character for Python 2 `re`'s `\b`/`\w` (`[A-Za-z0-9_]`). -/
def pyIsWord (c : Char) : Bool := isAlnumAscii c || c == '_'

/-- A character allowed in the local part of `RE_MAYBE_EMAIL`
(`[^()<>@,;:\\"\[\]\s\000-\031]`). -/
def emailLocalOk (c : Char) : Bool :=
  !(c.toNat ≤ 25 || pyIsSpace c ||
    c == '(' || c == ')' || c == '<' || c == '>' || c == '@' || c == ',' ||
    c == ';' || c == ':' || c == '\\' || c == '"' || c == '[' || c == ']')

/-- A character allowed in the domain part of `RE_MAYBE_EMAIL`
(`[a-zA-Z0-9_\.-]`). -/
def emailDomainOk (c : Char) : Bool :=
  isAlnumAscii c || c == '_' || c == '.' || c == '-'

/-- Embedding of `re.match(RE_MAYBE_EMAIL, s)` with
`RE_MAYBE_EMAIL = '^[^()<>@,;:\\"\[\]\s\000-\031]+@[a-zA-Z0-9_\.-]+(?:#[A-Za-z0-9]+)?$'`
(lines 1561-1562): a non-empty run of allowed local characters, `@`, a
non-empty run of domain characters, optionally `#` and a non-empty
alphanumeric fingerprint, to the end of the string. -/
def re_maybe_email (s : List Char) : Bool :=
  let lpart := s.takeWhile (fun c => !(c == '@'))
  match s.dropWhile (fun c => !(c == '@')) with
  | '@' :: dom =>
    let d := dom.takeWhile emailDomainOk
    let after := dom.dropWhile emailDomainOk
    !lpart.isEmpty && lpart.all emailLocalOk && !d.isEmpty &&
      (match after with
       | [] => true
       | '#' :: fp => !fp.isEmpty && fp.all isAlnumAscii
       | _ => false)
  | _ => false

/-- The `\b` test before `mailto:` in `RE_MUNGE_STRIP`: there is a word
boundary after `prev` (start of string, or a non-word character). -/
def munge_strip_boundary : Option Char → Bool
  | none => true
  | some c => !pyIsWord c

/-- Case-insensitive test for the 7 characters of `mailto:`. -/
def isMailto7 (c1 c2 c3 c4 c5 c6 c7 : Char) : Bool :=
  c1.toLower == 'm' && c2.toLower == 'a' && c3.toLower == 'i' &&
  c4.toLower == 'l' && c5.toLower == 't' && c6.toLower == 'o' && c7 == ':'

/-- Worker for `re.sub(RE_MUNGE_STRIP, '', s)` with
`RE_MUNGE_STRIP = '(?i)(?:\bmailto:|[\s"\x27]|\?$)'` (line 1558): scan left to
right, removing `mailto:` at a word boundary, any whitespace or quote
character, and a `?` at the end of the string (`$` also matches just before a
single final newline).  `prev` is the previous character of the original
string, for the `\b` test. -/
def munge_strip_go (prev : Option Char) : List Char → List Char
  | [] => []
  | c1 :: c2 :: c3 :: c4 :: c5 :: c6 :: c7 :: rest =>
    if munge_strip_boundary prev && isMailto7 c1 c2 c3 c4 c5 c6 c7 then
      munge_strip_go (some ':') rest
    else if pyIsSpace c1 || c1 == '"' || c1 == '\'' then
      munge_strip_go (some c1) (c2 :: c3 :: c4 :: c5 :: c6 :: c7 :: rest)
    else
      c1 :: munge_strip_go (some c1) (c2 :: c3 :: c4 :: c5 :: c6 :: c7 :: rest)
  | c :: rest =>
    if pyIsSpace c || c == '"' || c == '\'' then
      munge_strip_go (some c) rest
    else if c == '?' && (rest.isEmpty || rest == ['\n']) then
      munge_strip_go (some c) rest
    else
      c :: munge_strip_go (some c) rest

/-- The `munger` closure of `AddressHeaderParser._find_address`
(lines 1718-1722): when munging, strip `mailto:` prefixes, whitespace, quote
characters and a trailing `?`. -/
def munger (munge : PyVal) (s : List Char) : List Char :=
  if pyTruthy munge then munge_strip_go none s else s

/-- Modelled from the spec: an address record (`mailpile.vcard.AddressInfo`,
not under `src/`; spec section 3 `AddressRecord`): the e-mail address, the
display name (`fn`), and the optional key fingerprint parsed off an
`address#fingerprint` suffix (the source builds
`keys=[{'fingerprint': key}]`). -/
structure AddressInfo where
  address : List Char
  fn : List Char
  keys : Option (List Char)
deriving DecidableEq, Repr

/-- Python `s.replace(a + b, r)` for a two-character pattern and
one-character replacement (non-overlapping, left to right), as used for
`.replace(' ,', ',').replace(' ;', ';')`. -/
def replace2 (a b r : Char) : List Char → List Char
  | x :: y :: rest =>
    if x = a ∧ y = b then r :: replace2 a b r rest
    else x :: replace2 a b r (y :: rest)
  | l => l

/-- Split at the last `#`, as `email.rsplit('#', 1)` does (only called when a
`#` is present after the `@`). -/
def rsplit_hash (e : List Char) : List Char × List Char :=
  let r := e.reverse
  (((r.dropWhile (fun c => !(c == '#'))).drop 1).reverse,
   (r.takeWhile (fun c => !(c == '#'))).reverse)

/-- The `email_at(i)` closure of `AddressHeaderParser._find_address`
(lines 1706-1716): strip one level of parentheses from every token, join the
other tokens with spaces into the display name (collapsing `' ,'`/`' ;'`),
and split an optional `#fingerprint` suffix off the address token.  (If the
address token had no `@` — unreachable, since it matched `RE_MAYBE_EMAIL` —
the fingerprint test sees the empty suffix.) -/
def email_at (g : List (List Char)) (i : Nat) : AddressInfo :=
  let g1 := g.map (fun t =>
    if t.head? = some '(' ∧ t.getLast? = some ')' then (t.drop 1).dropLast else t)
  let rest := List.intercalate [' '] (g1.eraseIdx i)
  let rest := replace2 ' ' ',' ',' rest
  let rest := replace2 ' ' ';' ';' rest
  let email := g1.getD i []
  if (email.dropWhile (fun c => !(c == '@'))).contains '#' then
    let p := rsplit_hash email
    ⟨p.1, pyStrip rest, some p.2⟩
  else
    ⟨email, pyStrip rest, none⟩

/-- `g[i-1:i+1] = [g[i-1]+g[i]]` / `g[i:i+2] = [g[i]+g[i+1]]`: merge the
tokens at positions `j` and `j+1` into one. -/
def list_merge_at (g : List (List Char)) (j : Nat) : List (List Char) :=
  g.take j ++ [g.getD j [] ++ g.getD (j + 1) []] ++ g.drop (j + 2)

/-- One index step of the rejoin loop of `_find_address` (lines 1725-1730):
`for i in range(0, len(g))` over the original length, with conditions
re-checking the current (possibly shrunk) list. -/
def rejoin_at_body (g : List (List Char)) (i : Nat) : List (List Char) :=
  if 0 < i ∧ i < g.length ∧ (g.getD i []).head? = some '@' then
    list_merge_at g (i - 1)
  else if i < g.length - 1 ∧ (g.getD i []).getLast? = some '@' then
    list_merge_at g i
  else g

/-- The rejoin loop, iterating `i` for `fuel` steps (the original length,
since `range(0, len(g))` is evaluated once). -/
def rejoin_at_loop (g : List (List Char)) (i : Nat) : Nat → List (List Char)
  | 0 => g
  | fuel + 1 => rejoin_at_loop (rejoin_at_body g i) (i + 1) fuel

/-- The "look for email @domain.com in two parts, rejoin" loop of
`_find_address`, applied when munging. -/
def rejoin_at (g : List (List Char)) : List (List Char) :=
  rejoin_at_loop g 0 g.length

/-- First scan of `_find_address` (lines 1733-1738): find the first token of
the form `<...>` whose munged interior matches `RE_MAYBE_EMAIL`; return its
(absolute) index and the munged interior (which replaces the token). -/
def angle_scan (munge : PyVal) : List (List Char) → Nat →
    Option (Nat × List Char)
  | [], _ => none
  | t :: ts, i =>
    if t.head? = some '<' ∧ t.getLast? = some '>' then
      let mm := munger munge ((t.drop 1).dropLast)
      if re_maybe_email mm then some (i, mm) else angle_scan munge ts (i + 1)
    else angle_scan munge ts (i + 1)

/-- Second scan of `_find_address` (lines 1741-1745): find the first token
whose munged form matches `RE_MAYBE_EMAIL` bare. -/
def bare_scan (munge : PyVal) : List (List Char) → Nat →
    Option (Nat × List Char)
  | [], _ => none
  | t :: ts, i =>
    let mm := munger munge t
    if re_maybe_email mm then some (i, mm) else bare_scan munge ts (i + 1)

/-- Embedding of `AddressHeaderParser._find_address(self, g, _raise, munge)`
(lines 1700-1750) over a group of (already cleaned/unquoted) tokens:
`.ok none` models the falsy returns (`[]` for an empty group, `None` when
`_raise` is off), `.error ()` the `ValueError('No email found ...')`. -/
def find_address (g0 : List (List Char)) (_raise : Bool) (munge : PyVal) :
    Except Unit (Option AddressInfo) :=
  match g0 with
  | [] => .ok none
  | _ =>
    let g := if pyTruthy munge then rejoin_at g0 else g0
    match angle_scan munge g 0 with
    | some p => .ok (some (email_at (g.set p.1 p.2) p.1))
    | none =>
      match bare_scan munge g 0 with
      | some p => .ok (some (email_at (g.set p.1 p.2) p.1))
      | none => if _raise then .error () else .ok none

/-- Embedding of `AddressHeaderParser._find_addresses` (lines 1696-1698):
run `_find_address` over every group (a raised `ValueError` propagates from
the list comprehension), then drop the falsy results. -/
def find_addresses : List (List (List Char)) → Bool → PyVal →
    Except Unit (List AddressInfo)
  | [], _, _ => .ok []
  | g :: rest, _raise, munge =>
    match find_address g _raise munge with
    | .error e => .error e
    | .ok a =>
      match find_addresses rest _raise munge with
      | .error e => .error e
      | .ok l =>
        match a with
        | some ai => .ok (ai :: l)
        | none => .ok l

/-- Embedding of the pass driver `AddressHeaderParser._parse(self, data,
strict, _raise)` (lines 1590-1618).  The `_tokenize`/`_group` stages (regular
expression tokenization plus RFC2047 unquoting) are abstracted as the
per-pass group lists `groupsOf 1/2/3`; each pass then runs the real
`find_addresses` embedding.  Pass 1 passes `_raise=(not strict)` and no
munging; the sloppy passes iterate `for _pass in ('2', '3')` and their
re-raise guard compares `_pass == 3` — a Python 2 string-vs-int comparison,
evaluated by `pyEq`.  A pass that fails without re-raising leaves `self`
holding the `[]` from `_reset`, which the final `return self` yields. -/
def parse_driver (groupsOf : Nat → List (List (List Char)))
    (strict _raise : Bool) : Except Unit (List AddressInfo) :=
  match find_addresses (groupsOf 1) (!strict) (.pyBool false) with
  | .ok r => .ok r
  | .error e1 =>
    if strict ∧ _raise then .error e1
    else if strict then .ok []
    else
      match find_addresses (groupsOf 2) _raise (.pyStr "2") with
      | .ok r => .ok r
      | .error e2 =>
        if pyEq (.pyStr "2") (.pyInt 3) = true ∧ _raise then .error e2
        else
          match find_addresses (groupsOf 3) _raise (.pyStr "3") with
          | .ok r => .ok r
          | .error e3 =>
            if pyEq (.pyStr "3") (.pyInt 3) = true ∧ _raise then .error e3
            else .ok []

/-- Modelled from the spec: the message-level crypto aggregate
(`tree['crypto']` holding a `SignatureInfo(bubbly=False)` and an
`EncryptionInfo(bubbly=False)` from `mailpile.crypto.state`, not under
`src/`).  Children `bubble_up` into the bubble lists; `mix_bubbles` folds
them into the statuses (spec section 4.4). -/
structure TreeCrypto where
  signature : CryptoStatus
  encryption : CryptoStatus
  sig_bubbles : List CryptoStatus
  enc_bubbles : List CryptoStatus
deriving DecidableEq, Repr

/-- A fresh message-level aggregate: both statuses "none", no bubbles. -/
def tcDefault : TreeCrypto := ⟨csNone, csNone, [], []⟩

/-- Modelled from the spec (section 4.4 "mix_bubbles"): children contribute
only non-default statuses; any invalid/failed child makes the aggregate
invalid, else the first non-"none" child status wins, else the aggregate
keeps its current (default "none") status. -/
def mix_bubbles (cur : CryptoStatus) (bubbles : List CryptoStatus) :
    CryptoStatus :=
  if bubbles.any (fun b => b.status == chars "invalid" || b.status == chars "error") then
    ⟨chars "invalid"⟩
  else
    match bubbles.find? (fun b => !(b.status == chars "none")) with
    | some b => b
    | none => cur

/-- Modelled from the spec: `si.bubble_up(tree['crypto']['signature'])` and
`ei.bubble_up(tree['crypto']['encryption'])` — record the child status in the
aggregate's bubble list (lines 1423-1430; together with the
`tree['crypto']` initialization for a tree that had none). -/
def evaluate_pgp_bubble (tc : Option TreeCrypto)
    (si ei : Option CryptoStatus) : Option TreeCrypto :=
  let tc1 := if (si.isSome ∨ ei.isSome) ∧ tc = none then some tcDefault else tc
  let tc2 := match si, tc1 with
    | some s, some t => some { t with sig_bubbles := t.sig_bubbles ++ [s] }
    | _, _ => tc1
  match ei, tc2 with
  | some e, some t => some { t with enc_bubbles := t.enc_bubbles ++ [e] }
  | _, _ => tc2

/-- The message tree as `evaluate_pgp` sees it: the `text_parts` list (absent
`text_parts` makes the function return immediately and is not modelled) and
the optional `tree['crypto']` aggregate (`none` models the key being absent). -/
structure MessageTree where
  text_parts : List TextBlock
  crypto : Option TreeCrypto
deriving DecidableEq, Repr

/-- `pgpdata[j]['data'] = d` — update the data of the part at index `j`. -/
def set_part_data (ps : List TextBlock) (j : Nat) (d : List Char) :
    List TextBlock :=
  ps.set j { ps.getD j default with data := d }

/-- `pgpdata[j]['crypto']['signature'] = si`. -/
def set_part_sig (ps : List TextBlock) (j : Nat) (s : CryptoStatus) :
    List TextBlock :=
  ps.set j { ps.getD j default with signature := s }

/-- `pgpdata[j]['crypto']['encryption'] = ei`. -/
def set_part_enc (ps : List TextBlock) (j : Nat) (s : CryptoStatus) :
    List TextBlock :=
  ps.set j { ps.getD j default with encryption := s }

/-- The three mutations after a successful `gpg.verify` (lines 1394-1396):
`pgpdata[0]['data'] = ''`, `pgpdata[1]['crypto']['signature'] = si`,
`pgpdata[2]['data'] = ''`, executed in order.  An `IndexError` partway (a run
shorter than three blocks) is swallowed by the surrounding `except`, keeping
the mutations already applied. -/
def sig_mutations (ps : List TextBlock) (pgpdata : List Nat)
    (si : CryptoStatus) : List TextBlock :=
  match pgpdata with
  | [] => ps
  | [j0] => set_part_data ps j0 []
  | [j0, j1] => set_part_sig (set_part_data ps j0 []) j1 si
  | j0 :: j1 :: j2 :: _ =>
    set_part_data (set_part_sig (set_part_data ps j0 []) j1 si) j2 []

/-- `text, charset = self.decode_text(text, binary=False)` (line 1414):
`decode_text` never raises (it falls back to a placeholder), and charset
decoding is collapsed to the identity in this embedding. -/
def decode_text_m (t : List Char) : List Char := t

/-- The mutations after a successful `gpg.decrypt` (lines 1416-1421):
annotate `pgpdata[1]` with both statuses and, when the encryption status is
"decrypted", blank `pgpdata[0]`/`pgpdata[2]` and replace `pgpdata[1]`'s data
with the decrypted text.  These are not inside any `try`: a missing index
raises an uncaught `IndexError`, modelled as `.error ()`. -/
def decrypt_mutations (ps : List TextBlock) (pgpdata : List Nat)
    (si ei : CryptoStatus) (text : List Char) :
    Except Unit (List TextBlock) :=
  match pgpdata.get? 1 with
  | none => .error ()
  | some j1 =>
    let ps := set_part_sig (set_part_enc ps j1 ei) j1 si
    if ei.status = chars "decrypted" then
      match pgpdata.get? 0 with
      | none => .error ()
      | some j0 =>
        let ps := set_part_data ps j0 []
        let ps := set_part_data ps j1 text
        match pgpdata.get? 2 with
        | none => .error ()
        | some j2 => .ok (set_part_data ps j2 [])
    else .ok ps

/-- The `for part in tree['text_parts']` loop of `Email.evaluate_pgp`
(lines 1377-1430), iterating over part indices.  `verify`/`decrypt` are the
external `GnuPG` calls; `.error` from `verify` models the exception caught by
the `except` at lines 1398-1399 (run left unmodified, `si` stays `None`),
while `.error` from `decrypt` has no handler and aborts the whole call.
After each part, `si`/`ei` (when set) bubble up into the tree aggregate. -/
def evaluate_pgp_go (verify : List Char → Except Unit CryptoStatus)
    (decrypt : List Char → Except Unit (CryptoStatus × CryptoStatus × List Char))
    (check_sigs dec : Bool) :
    List Nat → List TextBlock → List Nat → Option TreeCrypto →
    Except Unit (List TextBlock × Option TreeCrypto)
  | [], ps, _, tc => .ok (ps, tc)
  | i :: rest, ps, pgpdata, tc =>
    let p := ps.getD i default
    -- check_sigs branch (lines 1382-1399)
    let sigR : List TextBlock × List Nat × Option CryptoStatus :=
      if check_sigs then
        if p.btype = .pgpbeginsigned then (ps, [i], none)
        else if p.btype = .pgpsignedtext then (ps, pgpdata ++ [i], none)
        else if p.btype = .pgpsignature then
          let pd := pgpdata ++ [i]
          let message := (pd.map (fun j => (ps.getD j default).data)).flatten
          match verify message with
          | .error _ => (ps, pd, none)
          | .ok si => (sig_mutations ps pd si, pd, some si)
        else (ps, pgpdata, none)
      else (ps, pgpdata, none)
    let ps1 := sigR.1
    let pd1 := sigR.2.1
    let si1 := sigR.2.2
    -- decrypt branch (lines 1401-1421)
    if dec then
      if p.btype = .pgpbegin ∨ p.btype = .pgptext then
        evaluate_pgp_go verify decrypt check_sigs dec rest ps1 (pd1 ++ [i])
          (evaluate_pgp_bubble tc si1 none)
      else if p.btype = .pgpend then
        let pd := pd1 ++ [i]
        let data := (pd.map (fun j => (ps1.getD j default).data)).flatten
        match decrypt data with
        | .error e => .error e
        | .ok r =>
          match decrypt_mutations ps1 pd r.1 r.2.1 (decode_text_m r.2.2) with
          | .error e => .error e
          | .ok ps2 =>
            evaluate_pgp_go verify decrypt check_sigs dec rest ps2 pd
              (evaluate_pgp_bubble tc (some r.1) (some r.2.1))
      else
        evaluate_pgp_go verify decrypt check_sigs dec rest ps1 pd1
          (evaluate_pgp_bubble tc si1 none)
    else
      evaluate_pgp_go verify decrypt check_sigs dec rest ps1 pd1
        (evaluate_pgp_bubble tc si1 none)

/-- Embedding of `Email.evaluate_pgp(self, tree, check_sigs, decrypt)`
(lines 1371-1441): run the per-part loop, then call `mix_bubbles` on
`tree['crypto']` (line 1437-1438) — a `KeyError` (`.error ()`) if the tree
has no crypto aggregate and no run created one.  The crypto-state feedback
and the removal of empty `'crypto': {}` dicts (never produced in this model)
are not observable here. -/
def evaluate_pgp (verify : List Char → Except Unit CryptoStatus)
    (decrypt : List Char → Except Unit (CryptoStatus × CryptoStatus × List Char))
    (tree : MessageTree) (check_sigs dec : Bool) : Except Unit MessageTree :=
  match evaluate_pgp_go verify decrypt check_sigs dec
      (List.range tree.text_parts.length) tree.text_parts [] tree.crypto with
  | .error e => .error e
  | .ok r =>
    match r.2 with
    | none => .error ()
    | some t =>
      .ok ⟨r.1, some ⟨mix_bubbles t.signature t.sig_bubbles,
        mix_bubbles t.encryption t.enc_bubbles,
        t.sig_bubbles, t.enc_bubbles⟩⟩

/-- The disjunction of every explicit guard of `parse_line_type`: the cases
the transition table covers before the final `return 'body', 'text'`
fallthrough.  (Matching a state constant covers the case because every
branch keyed on that state returns without falling through.) -/
def parse_line_type_covered (line : List Char) (block : BlockState) : Prop :=
  ((block = .body ∨ block = .quote) ∧
    (line = chars "-- \n" ∨ line = chars "-- \r\n" ∨
     line = chars "- --\n" ∨ line = chars "- --\r\n")) ∨
  block = .signature ∨
  pyRstrip line = ARMOR_BEGIN_SIGNED ∨
  block = .pgpbeginsigned ∨ block = .pgpsignedtext ∨ block = .pgpsignature ∨
  pyRstrip line = ARMOR_BEGIN_ENCRYPTED ∨
  block = .pgpbegin ∨ block = .pgptext ∨
  (block = .quote ∧ pyRstrip line = []) ∨
  List.isPrefixOf (chars ">") line = true

instance (line : List Char) (block : BlockState) :
    Decidable (parse_line_type_covered line block) := by
  unfold parse_line_type_covered; infer_instance

/-- The concatenated `data` fields of a block list. -/
def blocks_data (bs : List TextBlock) : List Char :=
  (bs.map TextBlock.data).flatten

/-- All blocks a `parse_text_part` state holds: the finished ones plus the
current one. -/
def pt_out (st : PTState) : List TextBlock :=
  st.parse ++ st.cur.toList

/-- The data of the current block (empty for the initial placeholder). -/
def cur_data : Option TextBlock → List Char
  | none => []
  | some b => b.data

/-!
Sanity checks: concrete runs of the embeddings, matching hand-traces of the
Python source (and, for the address parser, its doctests).
-/

example : parse_line_type (chars "-- \n") .body = (.signature, .signature) := by decide

example : parse_line_type (chars "-- ") .body = (.body, .text) := by decide

example : pySplitlines (chars "a\nb\r\nc") = [chars "a\n", chars "b\r\n", chars "c"] := by decide

example :
    (parse_text_part (chars "Hello\n-- \nSent from my phone\n") (chars "u")).map
      (fun b => (b.btype, b.data)) =
    [(.text, chars "Hello\n"), (.signature, chars "-- \nSent from my phone\n")] := by
  decide

example :
    (parse_text_part (chars "x\na@b\n> q\n") (chars "u")).map
      (fun b => (b.btype, b.data)) =
    [(.text, chars "x\n"), (.quote, chars "a@b\n> q\n")] := by
  decide

example : tokenize_munge (.pyStr "2") (chars "a<b\"c") = chars "a <b\"c" := by decide

example : tokenize_munge (.pyStr "3") (chars "a<b\"c") = chars "a <b\"c" := by decide

example : tokenize_munge (.pyInt 3) (chars "a<b\"c") = chars "a bc" := by decide

example : munger (.pyStr "2") (chars "mailto:a@b.c") = chars "a@b.c" := by decide

example : munger (.pyStr "2") (chars "'a@b.c'") = chars "a@b.c" := by decide

example : munger (.pyBool false) (chars "mailto:a@b.c") = chars "mailto:a@b.c" := by decide

example : re_maybe_email (chars "bre@klaki.net") = true := by decide

example : re_maybe_email (chars "bre@klaki.net#61A015763D28D4") = true := by decide

example : re_maybe_email (chars "no") = false := by decide

example :
    find_address [chars "Bjarni", chars "<bre@klaki.net>"] true (.pyBool false) =
    .ok (some ⟨chars "bre@klaki.net", chars "Bjarni", none⟩) := by decide

example :
    find_address [chars "This is a key test",
        chars "<bre@klaki.net#61A015763D28D410A87B197328191D9B3B4199B4>"]
      true (.pyBool false) =
    .ok (some ⟨chars "bre@klaki.net", chars "This is a key test",
        some (chars "61A015763D28D410A87B197328191D9B3B4199B4")⟩) := by decide

example :
    parse_driver (fun _ => [[chars "no", chars "address", chars "here"]])
      false true = .ok [] := by decide

example :
    evaluate_pgp (fun _ => .ok csNone) (fun _ => .error ())
      ⟨[⟨.pgpbegin, chars "B\n", chars "u", csNone, csNone⟩,
        ⟨.pgptext, chars "T\n", chars "u", csNone, csNone⟩,
        ⟨.pgpend, chars "E\n", chars "u", csNone, csNone⟩], some tcDefault⟩
      true true = .error () := by decide

example :
    evaluate_pgp (fun _ => .error ()) (fun _ => .error ())
      ⟨[⟨.pgpbeginsigned, chars "B\n", chars "u", csNone, csNone⟩,
        ⟨.pgpsignedtext, chars "T\n", chars "u", csNone, csNone⟩,
        ⟨.pgpsignature, chars "E\n", chars "u", csNone, csNone⟩], some tcDefault⟩
      true false =
    .ok ⟨[⟨.pgpbeginsigned, chars "B\n", chars "u", csNone, csNone⟩,
        ⟨.pgpsignedtext, chars "T\n", chars "u", csNone, csNone⟩,
        ⟨.pgpsignature, chars "E\n", chars "u", csNone, csNone⟩], some tcDefault⟩ := by
  decide

theorem splitlinesAux_flatten (acc l : List Char) :
    (splitlinesAux acc l).flatten = acc.reverse ++ l := by
  induction acc, l using splitlinesAux.induct <;>
    simp_all [splitlinesAux, List.isEmpty_iff]

theorem pySplitlines_flatten (l : List Char) : (pySplitlines l).flatten = l := by
  simpa using splitlinesAux_flatten [] l

theorem flatten_take_drop (clines : List (List Char)) (m : Nat) :
    (clines.take m).flatten ++ (clines.drop m).flatten = clines.flatten := by
  rw [← List.flatten_append, List.take_append_drop]

theorem parse_text_part_step_out (charset : List Char) (st : PTState)
    (line : List Char)
    (h1 : cur_data st.cur = st.clines.flatten)
    (h2 : st.cur = none → st.clines = []) :
    blocks_data (pt_out (parse_text_part_step charset st line)) =
      blocks_data (pt_out st) ++ line ∧
    cur_data (parse_text_part_step charset st line).cur =
      (parse_text_part_step charset st line).clines.flatten ∧
    ((parse_text_part_step charset st line).cur = none →
      (parse_text_part_step charset st line).clines = []) := by
  obtain ⟨parse, cur, block, clines⟩ := st
  cases cur with
  | none =>
    have hcl : clines = [] := h2 rfl
    subst hcl
    simp [parse_text_part_step, pt_out, blocks_data, cur_data, lookback_k]
  | some b =>
    simp only [cur_data] at h1
    by_cases hty : (parse_line_type line block).2 = b.btype
    · simp [parse_text_part_step, hty, pt_out, blocks_data, cur_data, h1]
    · by_cases hk : lookback_k (parse_line_type line block).2 clines = 0
      · simp [parse_text_part_step, hty, hk, pt_out, blocks_data, cur_data, h1]
      · simp only [parse_text_part_step, hty, if_false, if_neg hk, pt_out,
          blocks_data, cur_data]
        refine ⟨?_, ?_, ?_⟩
        · simp [List.map_append, List.flatten_append, h1]
          rw [← List.append_assoc, flatten_take_drop]
        · simp
        · simp

theorem parse_text_part_run_out (charset : List Char) :
    ∀ (lines : List (List Char)) (st : PTState),
    cur_data st.cur = st.clines.flatten →
    (st.cur = none → st.clines = []) →
    blocks_data (pt_out (lines.foldl (parse_text_part_step charset) st)) =
      blocks_data (pt_out st) ++ lines.flatten := by
  intro lines
  induction lines with
  | nil => intro st _ _; simp
  | cons line rest ih =>
    intro st h1 h2
    obtain ⟨ho, hc1, hc2⟩ := parse_text_part_step_out charset st line h1 h2
    simp only [List.foldl_cons, List.flatten_cons]
    rw [ih _ hc1 hc2, ho, List.append_assoc]

/-- Claim C1: for every decoded text input, concatenating the `data` fields of
all blocks returned by `parse_text_part`, in order, reproduces the input text
byte-for-byte — including when the quote-lookback heuristic moves one or two
trailing lines from the previous block into a new quote block (the moved
lines are removed from the previous block's data and prepended to the new
block's, so the total is preserved). -/
theorem parse_text_part_reconstructs (data charset : List Char) :
    blocks_data (parse_text_part data charset) = data := by
  have h := parse_text_part_run_out charset (pySplitlines data)
    parse_text_part_init rfl (fun _ => rfl)
  simp only [parse_text_part, parse_text_part_run]
  simpa [parse_text_part_init, pt_out, blocks_data, pySplitlines_flatten] using h

/-- Claim C8: `parse_line_type` is total and deterministic — it is a Lean
function, so every `(block_state, line)` pair gets exactly one
`(next_block, line_type)` result and no exception is possible — and every
case not covered by an explicit guard of the transition table falls through
to `('body', 'text')`: for all inputs, either the result is `(body, text)` or
one of the explicit guards (collected in `parse_line_type_covered`) holds. -/
theorem parse_line_type_total_fallthrough (line : List Char)
    (block : BlockState) :
    parse_line_type line block = (.body, .text) ∨
      parse_line_type_covered line block := by
  cases block with
  | signature => exact Or.inr (by unfold parse_line_type_covered; tauto)
  | pgpbeginsigned => exact Or.inr (by unfold parse_line_type_covered; tauto)
  | pgpsignedtext => exact Or.inr (by unfold parse_line_type_covered; tauto)
  | pgpsignature => exact Or.inr (by unfold parse_line_type_covered; tauto)
  | pgpbegin => exact Or.inr (by unfold parse_line_type_covered; tauto)
  | pgptext => exact Or.inr (by unfold parse_line_type_covered; tauto)
  | body =>
    by_cases h0 : line = chars "-- \n" ∨ line = chars "-- \r\n" ∨
        line = chars "- --\n" ∨ line = chars "- --\r\n"
    · exact Or.inr (Or.inl ⟨Or.inl rfl, h0⟩)
    · by_cases h1 : pyRstrip line = ARMOR_BEGIN_SIGNED
      · exact Or.inr (by unfold parse_line_type_covered; tauto)
      · by_cases h2 : pyRstrip line = ARMOR_BEGIN_ENCRYPTED
        · exact Or.inr (by unfold parse_line_type_covered; tauto)
        · by_cases h3 : List.isPrefixOf (chars ">") line = true
          · exact Or.inr (by unfold parse_line_type_covered; tauto)
          · left
            unfold parse_line_type
            rw [if_neg (fun h => h0 h.2), if_neg (by decide), if_neg h1,
              if_neg (by decide), if_neg (by decide), if_neg (by decide),
              if_neg h2, if_neg (by decide), if_neg (by decide),
              if_neg (fun h => absurd h.1 (by decide)), if_neg h3]
  | quote =>
    by_cases h0 : line = chars "-- \n" ∨ line = chars "-- \r\n" ∨
        line = chars "- --\n" ∨ line = chars "- --\r\n"
    · exact Or.inr (Or.inl ⟨Or.inr rfl, h0⟩)
    · by_cases h1 : pyRstrip line = ARMOR_BEGIN_SIGNED
      · exact Or.inr (by unfold parse_line_type_covered; tauto)
      · by_cases h2 : pyRstrip line = ARMOR_BEGIN_ENCRYPTED
        · exact Or.inr (by unfold parse_line_type_covered; tauto)
        · by_cases hb : pyRstrip line = []
          · exact Or.inr (by unfold parse_line_type_covered; tauto)
          · by_cases h3 : List.isPrefixOf (chars ">") line = true
            · exact Or.inr (by unfold parse_line_type_covered; tauto)
            · left
              unfold parse_line_type
              rw [if_neg (fun h => h0 h.2), if_neg (by decide), if_neg h1,
                if_neg (by decide), if_neg (by decide), if_neg (by decide),
                if_neg h2, if_neg (by decide), if_neg (by decide),
                if_neg (fun h => hb h.2), if_neg h3]
  | pgpend =>
    by_cases h1 : pyRstrip line = ARMOR_BEGIN_SIGNED
    · exact Or.inr (by unfold parse_line_type_covered; tauto)
    · by_cases h2 : pyRstrip line = ARMOR_BEGIN_ENCRYPTED
      · exact Or.inr (by unfold parse_line_type_covered; tauto)
      · by_cases h3 : List.isPrefixOf (chars ">") line = true
        · exact Or.inr (by unfold parse_line_type_covered; tauto)
        · left
          unfold parse_line_type
          rw [if_neg (fun h => by rcases h.1 with h | h <;> exact absurd h (by decide)),
            if_neg (by decide), if_neg h1,
            if_neg (by decide), if_neg (by decide), if_neg (by decide),
            if_neg h2, if_neg (by decide), if_neg (by decide),
            if_neg (fun h => absurd h.1 (by decide)), if_neg h3]

/-- Claim C6: in block states `body` and `quote`, the signature-separator
lines accepted by the source — `'-- '` with `\n` or `\r\n` terminator, and
the historic dash-escaped form `'- --'` with either terminator — transition
the classifier to the `signature` state emitting type `signature`; and the
input lines `["Hello\n", "-- \n", "Sent from my phone\n"]` produce exactly
two blocks, a `text` block containing `"Hello\n"` and a `signature` block
containing the remaining two lines concatenated. -/
theorem signature_marker_transition :
    ([BlockState.body, BlockState.quote].all fun b =>
      [chars "-- \n", chars "-- \r\n", chars "- --\n", chars "- --\r\n"].all
        fun l => parse_line_type l b == (.signature, .signature)) = true ∧
    (parse_text_part_run (chars "utf-8")
        [chars "Hello\n", chars "-- \n", chars "Sent from my phone\n"]).map
      (fun b => (b.btype, b.data)) =
    [(.text, chars "Hello\n"),
     (.signature, chars "-- \nSent from my phone\n")] := by
  exact ⟨by decide, by decide⟩

/-- Claim C10: the signature-marker transition fires only on lines terminated
by a newline — the accepted forms all end in `\n` — so a final line that is
exactly `"-- "` with no trailing terminator is classified `('body', 'text')`
in state `body`, and a message ending in such an unterminated line gains no
signature block (the line is merged into the preceding text block). -/
theorem unterminated_sigdash_not_signature :
    parse_line_type (chars "-- ") .body = (.body, .text) ∧
    (parse_text_part (chars "Hello\n-- ") (chars "utf-8")).map
      (fun b => (b.btype, b.data)) =
    [(.text, chars "Hello\n-- ")] := by
  exact ⟨by decide, by decide⟩

/-- Claim C2 (code bug): the tree builder and the attachment finder do not
compute the attachment ordinal by the same counting rule.  On a message whose
parts are `application/pgp-encrypted` followed by an ordinary
`application/octet-stream` leaf, `get_message_tree` skips the
`pgp-encrypted` placeholder (no count) and gives the leaf count 1, while
`_find_attachments` counts the placeholder (count 1) and gives the same leaf
count 2 — contradicting the source's own comment ("Note: count algorithm
must match that used in extract_attachment above", line 1150). -/
theorem attachment_count_mismatch :
    get_message_tree_counts
        [⟨chars "application/pgp-encrypted", none⟩,
         ⟨chars "application/octet-stream", none⟩] = [none, some 1] ∧
    find_attachments_counts
        [⟨chars "application/pgp-encrypted", none⟩,
         ⟨chars "application/octet-stream", none⟩] = [some 1, some 2] := by
  exact ⟨by decide, by decide⟩

/-- Claim C5 (code bug): pass 3 does not tokenize a strictly more munged
string than pass 2.  The stripper branch of `_tokenize` is guarded by
`munge == 3`, but `_parse` passes the string `'3'`, and in Python 2
`'3' == 3` is `False`; so the `<>"`-strippers never run and the string
handed to the tokenizer in pass 3 equals that of pass 2 for every input —
e.g. `'a<b"c'` still contains `<` and `"` after pass-3 munging.  (Passing
the integer 3, as the dead guard expects, would strip them.) -/
theorem tokenize_munge_pass3_eq_pass2 :
    (∀ s : List Char,
      tokenize_munge (.pyStr "3") s = tokenize_munge (.pyStr "2") s) ∧
    (tokenize_munge (.pyStr "3") (chars "a<b\"c")).contains '<' = true ∧
    tokenize_munge (.pyInt 3) (chars "a<b\"c") = chars "a bc" := by
  refine ⟨fun s => ?_, by decide, by decide⟩
  simp [tokenize_munge, pyTruthy, pyEq]

/-- Claim C4 (code bug): with `_raise` requested and strict mode off, a
header whose groups contain no recognizable address does not raise: the
re-raise guard in `_parse` is `if _pass == 3 and _raise: raise`, but `_pass`
iterates over the strings `('2', '3')` and in Python 2 `'3' == 3` is
`False`, so the pass-3 `ValueError` is swallowed and the parse returns the
empty result left by `_reset`.  Here every pass sees the single group
`['no', 'address', 'here']` (the tokenization of `'no address here'`, which
no munging changes), `find_addresses` raises in every pass, and the driver
returns `.ok []` instead of the claimed error.  (The second half of the
claim does hold: without `_raise` the group is silently omitted.) -/
theorem parse_driver_swallows_pass3_error :
    parse_driver (fun _ => [[chars "no", chars "address", chars "here"]])
      false true = .ok [] ∧
    parse_driver (fun _ => [[chars "no", chars "address", chars "here"]])
      false false = .ok [] ∧
    pyEq (.pyStr "3") (.pyInt 3) = false := by
  exact ⟨by decide, by decide, by decide⟩

/-- Claim C9: the parse cache is bounded and most-recent-first — after any
`ParseMessage` insertion the cache holds at most 25 entries, the newly
inserted `(cache_id, pgpmime, message)` entry is at the front and the rest is
the most recent 24 old entries (older ones evicted); entries are keyed by the
`(message identity, decode mode)` pair: looking up the inserted key returns
the inserted message, and any lookup returning a cached message does so from
an entry whose `cache_id` and `pgpmime` flag both match. -/
theorem parse_cache_bounded_mru {α β : Type} [DecidableEq α]
    (cache : List (α × Bool × β)) (e : α × Bool × β) (cid : α) (pm : Bool)
    (msg : β) :
    (parse_cache_insert cache e).length ≤ 25 ∧
    (parse_cache_insert cache e).head? = some e ∧
    (parse_cache_insert cache e).tail = cache.take 24 ∧
    parse_cache_lookup (parse_cache_insert cache e) e.1 e.2.1 = some e.2.2 ∧
    (parse_cache_lookup cache cid pm = some msg → (cid, pm, msg) ∈ cache) := by
  refine ⟨?_, rfl, rfl, ?_, ?_⟩
  · have h := List.length_take_le 24 cache
    simp only [parse_cache_insert, List.length_cons]
    omega
  · simp [parse_cache_insert, parse_cache_lookup]
  · intro hl
    induction cache with
    | nil => simp [parse_cache_lookup] at hl
    | cons x rest ih =>
      obtain ⟨a, b2, m⟩ := x
      by_cases hm : a = cid ∧ b2 = pm
      · rw [parse_cache_lookup, if_pos hm] at hl
        obtain ⟨ha, hb⟩ := hm
        obtain rfl : m = msg := by simpa using hl
        subst ha hb
        exact List.mem_cons_self _ _
      · rw [parse_cache_lookup, if_neg hm] at hl
        exact List.mem_cons_of_mem _ (ih hl)

/-- Witness for claim C9 at a concrete cache: applying the theorem at
`cache = [(2, false, 7)]`, `e = (1, true, 5)` discharges the lookup
hypothesis with `decide` and yields the membership and bound facts. -/
theorem parse_cache_bounded_mru_witness :
    ((2, false, 7) : Nat × Bool × Nat) ∈ [((2, false, 7) : Nat × Bool × Nat)] ∧
    (parse_cache_insert [((2, false, 7) : Nat × Bool × Nat)] (1, true, 5)).length ≤ 25 := by
  have h := parse_cache_bounded_mru [((2, false, 7) : Nat × Bool × Nat)]
    (1, true, 5) 2 false 7
  exact ⟨h.2.2.2.2 (by decide), h.1⟩

/-- Counterexample to claim C3 as stated: a tree holding one complete
`pgpbegin`/`pgptext`/`pgpend` run, processed by `evaluate_pgp` with
decryption enabled and a decrypt call that raises.  The claim says the
exception is caught at the run level and processing continues; in the source
the decrypt call (line 1409) is outside any `try`, so the exception
propagates out of `evaluate_pgp` — the call evaluates to `.error ()` instead
of returning a tree. -/
theorem decrypt_exception_propagates_cex :
    evaluate_pgp (fun _ => .ok csNone) (fun _ => .error ())
      ⟨[⟨.pgpbegin, chars "-----BEGIN PGP MESSAGE-----\n", chars "utf-8",
          csNone, csNone⟩,
        ⟨.pgptext, chars "hQEMA5B6Hqh\n", chars "utf-8", csNone, csNone⟩,
        ⟨.pgpend, chars "-----END PGP MESSAGE-----\n", chars "utf-8",
          csNone, csNone⟩], some tcDefault⟩
      true true = .error () := by decide

/-- Claim C3 as amended: in `evaluate_pgp`, an exception from the external
verify call is caught at the run level — the three pgp-delimited blocks'
text and annotations are left unchanged and the message-level crypto
aggregate stays at its default "none" status (the whole tree is returned
unmodified) — but an exception from the external decrypt call is not caught:
it propagates out of `evaluate_pgp` to the caller (no block was modified
before the raise, but no tree is returned and nothing continues). -/
theorem evaluate_pgp_exception_handling (a b c : List Char)
    (ver : List Char → Except Unit CryptoStatus)
    (dec : List Char → Except Unit (CryptoStatus × CryptoStatus × List Char)) :
    evaluate_pgp (fun _ => .error ()) dec
      ⟨[⟨.pgpbeginsigned, a, chars "utf-8", csNone, csNone⟩,
        ⟨.pgpsignedtext, b, chars "utf-8", csNone, csNone⟩,
        ⟨.pgpsignature, c, chars "utf-8", csNone, csNone⟩], some tcDefault⟩
      true false =
    .ok ⟨[⟨.pgpbeginsigned, a, chars "utf-8", csNone, csNone⟩,
        ⟨.pgpsignedtext, b, chars "utf-8", csNone, csNone⟩,
        ⟨.pgpsignature, c, chars "utf-8", csNone, csNone⟩], some tcDefault⟩ ∧
    evaluate_pgp ver (fun _ => .error ())
      ⟨[⟨.pgpbegin, a, chars "utf-8", csNone, csNone⟩,
        ⟨.pgptext, b, chars "utf-8", csNone, csNone⟩,
        ⟨.pgpend, c, chars "utf-8", csNone, csNone⟩], some tcDefault⟩
      true true = .error () := by
  exact ⟨rfl, rfl⟩

/-- Claim C7: when block assembly transitions into a quote block, the
lookback reattributes exactly the trailing attribution material of the
previous block into the new quote block, and nothing else is ever moved.
For a reachable state (current block `b` with `b.data` the concatenation of
its accumulated lines `clines`): (i) if the new line's type is `quote`,
differs from the current block's, and the last accumulated line contains
`'@'`, exactly that one line moves — the previous block keeps
`clines.take (n-1)` and the new quote block starts with `clines.drop (n-1)`;
(ii) else if additionally the block has more than two lines, the
second-to-last contains `'@'` and the last is blank, exactly those two lines
move; (iii) in every other case — same type, non-quote transition, or
lookback conditions not met — no line moves: the current block is extended,
or it is finished with its data intact and the new block contains only the
new line. -/
theorem quote_lookback_moves_attribution (charset : List Char) (st : PTState)
    (line : List Char) (b : TextBlock)
    (hcur : st.cur = some b) (hdata : b.data = st.clines.flatten) :
    (((parse_line_type line st.block).2 = .quote ∧
      (parse_line_type line st.block).2 ≠ b.btype ∧
      (st.clines.getLast?.getD []).contains '@' = true) →
      (parse_text_part_step charset st line).parse =
        st.parse ++
          [{ b with data := (st.clines.take (st.clines.length - 1)).flatten }] ∧
      (parse_text_part_step charset st line).cur =
        some ⟨.quote, (st.clines.drop (st.clines.length - 1)).flatten ++ line,
          charset, csNone, csNone⟩ ∧
      b.data = (st.clines.take (st.clines.length - 1)).flatten ++
        (st.clines.drop (st.clines.length - 1)).flatten) ∧
    (((parse_line_type line st.block).2 = .quote ∧
      (parse_line_type line st.block).2 ≠ b.btype ∧
      ¬ (st.clines.getLast?.getD []).contains '@' = true ∧
      2 < st.clines.length ∧
      (st.clines.dropLast.getLast?.getD []).contains '@' = true ∧
      pyStrip (st.clines.getLast?.getD []) = []) →
      (parse_text_part_step charset st line).parse =
        st.parse ++
          [{ b with data := (st.clines.take (st.clines.length - 2)).flatten }] ∧
      (parse_text_part_step charset st line).cur =
        some ⟨.quote, (st.clines.drop (st.clines.length - 2)).flatten ++ line,
          charset, csNone, csNone⟩ ∧
      b.data = (st.clines.take (st.clines.length - 2)).flatten ++
        (st.clines.drop (st.clines.length - 2)).flatten) ∧
    (((parse_line_type line st.block).2 ≠ .quote ∨
      (parse_line_type line st.block).2 = b.btype ∨
      (¬ (st.clines.getLast?.getD []).contains '@' = true ∧
       ¬ (2 < st.clines.length ∧
          (st.clines.dropLast.getLast?.getD []).contains '@' = true ∧
          pyStrip (st.clines.getLast?.getD []) = []))) →
      ((parse_text_part_step charset st line).parse = st.parse ∧
        (parse_text_part_step charset st line).cur =
          some { b with data := b.data ++ line }) ∨
      ((parse_text_part_step charset st line).parse = st.parse ++ [b] ∧
        (parse_text_part_step charset st line).cur =
          some ⟨(parse_line_type line st.block).2, line, charset,
            csNone, csNone⟩)) := by
  obtain ⟨parse, cur, block, clines⟩ := st
  simp only at hcur hdata ⊢
  subst hcur
  refine ⟨?_, ?_, ?_⟩
  · rintro ⟨hq, hne, hat⟩
    have hk : lookback_k (parse_line_type line block).2 clines = 1 := by
      unfold lookback_k
      rw [if_pos ⟨hq, hat⟩]
    simp only [parse_text_part_step, if_neg hne, hk]
    exact ⟨rfl, by rw [hq], by rw [hdata, flatten_take_drop]⟩
  · rintro ⟨hq, hne, hat, hlen, hat2, hblank⟩
    have hk : lookback_k (parse_line_type line block).2 clines = 2 := by
      unfold lookback_k
      rw [if_neg (fun h => hat h.2), if_pos ⟨hq, hlen, hat2, hblank⟩]
    simp only [parse_text_part_step, if_neg hne, hk]
    exact ⟨rfl, by rw [hq], by rw [hdata, flatten_take_drop]⟩
  · intro hcase
    by_cases hty : (parse_line_type line block).2 = b.btype
    · left
      simp [parse_text_part_step, hty]
    · right
      have hk : lookback_k (parse_line_type line block).2 clines = 0 := by
        rcases hcase with hnq | hbt | ⟨h1, h2⟩
        · unfold lookback_k
          rw [if_neg (fun h => hnq h.1), if_neg (fun h => hnq h.1)]
        · exact absurd hbt hty
        · unfold lookback_k
          rw [if_neg (fun h => h1 h.2), if_neg (fun h => h2 h.2)]
      simp [parse_text_part_step, hty, hk, List.drop_length]

/-- Witness for claim C7 at a concrete reachable state: a `text` block whose
single accumulated line `"a@b\n"` contains `'@'`, followed by the quote line
`"> hi\n"` — the attribution line moves into the new quote block and the
previous block is left with empty data. -/
theorem quote_lookback_moves_attribution_witness :
    (parse_text_part_step (chars "utf-8")
        ⟨[], some ⟨.text, chars "a@b\n", chars "utf-8", csNone, csNone⟩, .body,
          [chars "a@b\n"]⟩ (chars "> hi\n")).parse =
      [⟨.text, [], chars "utf-8", csNone, csNone⟩] ∧
    (parse_text_part_step (chars "utf-8")
        ⟨[], some ⟨.text, chars "a@b\n", chars "utf-8", csNone, csNone⟩, .body,
          [chars "a@b\n"]⟩ (chars "> hi\n")).cur =
      some ⟨.quote, chars "a@b\n> hi\n", chars "utf-8", csNone, csNone⟩ := by
  have h := quote_lookback_moves_attribution (chars "utf-8")
    ⟨[], some ⟨.text, chars "a@b\n", chars "utf-8", csNone, csNone⟩, .body,
      [chars "a@b\n"]⟩ (chars "> hi\n")
    ⟨.text, chars "a@b\n", chars "utf-8", csNone, csNone⟩ rfl (by decide)
  obtain ⟨h1, h2, _⟩ := h.1 ⟨by decide, by decide, by decide⟩
  exact ⟨h1.trans (by decide), h2.trans (by decide)⟩
